import Mathlib

/-
Shallow embedding of the MSSQL lowering registry
(`ibis/backends/mssql/registry.py`) and of the pandas array-indexing
executor (`ibis/backends/pandas/execution/arrays.py`).

SQLAlchemy expression values produced by the lowering functions are
modelled by the inductive `SQLExpr`.  The constructor `verbatim` stands
for `sa.text(...)` / `sa.literal_column(...)` (text spliced verbatim into
the query), while `strLit` / `intLit` / `boolLit` stand for plain Python
values handed to SQLAlchemy, which become bound parameters.  Python
exceptions raised by the lowering functions are modelled by `CompErr`
through the `Except` monad.
-/

/- Abstract SQLAlchemy expression nodes returned by lowering functions. -/
inductive SQLExpr where
  | column (name : String)
  | verbatim (s : String)
  | strLit (s : String)
  | intLit (n : Int)
  | boolLit (b : Bool)
  | nullLit
  | func (name : String) (args : List SQLExpr)
  | sub (a b : SQLExpr)
  | eq (a b : SQLExpr)
  | notE (a : SQLExpr)
  | caseWhen (cond thenB elseB : SQLExpr)
  | concat (a b : SQLExpr)

/- Exceptions raised by the lowering layer: `com.UnsupportedOperationError`,
`com.UnsupportedArgumentError`, Python `NotImplementedError`, a failed
`assert`, and Python `ValueError` (what `int()` raises on a malformed
string). -/
inductive CompErr where
  | unsupportedOperation (msg : String)
  | unsupportedArgument (msg : String)
  | notImplementedError (how : String)
  | assertionFailed
  | valueError
deriving DecidableEq

/- Discriminator used to state which exception class a lowering result
carries. -/
def errKindIsUnsupportedArgument : Except CompErr SQLExpr → Bool
  | .error (.unsupportedArgument _) => true
  | _ => false

/- The `_interval_units` dict of `registry.py` (lines 94-105), in source
order: short interval-unit code to MSSQL date-part keyword. -/
def _interval_units : List (String × String) :=
  [("us", "microsecond"),
   ("ms", "millisecond"),
   ("s", "second"),
   ("m", "minute"),
   ("h", "hour"),
   ("D", "day"),
   ("W", "week"),
   ("M", "month"),
   ("Q", "quarter"),
   ("Y", "year")]

/- The `_timestamp_truncate` lowering (lines 108-114): `unit` is
`op.unit.short`, `arg` the already-translated operand.  A unit missing
from `_interval_units` raises `UnsupportedOperationError`; otherwise the
keyword is passed through `sa.text`, i.e. verbatim. -/
def _timestamp_truncate (unit : String) (arg : SQLExpr) : Except CompErr SQLExpr :=
  match _interval_units.lookup unit with
  | none => .error (.unsupportedOperation ("Unsupported truncate unit " ++ unit))
  | some kw => .ok (.func "datetrunc" [.verbatim kw, arg])

/- The interval argument of `TimestampBucket`: either a literal (carrying
its unit's short code and its integer value) or any non-literal
interval-typed node (carrying only its unit's short code). -/
inductive IntervalValue where
  | literal (unit_short : String) (value : Int)
  | nonLiteral (unit_short : String)
deriving DecidableEq

def IntervalValue.unitShort : IntervalValue → String
  | .literal u _ => u
  | .nonLiteral u => u

def IntervalValue.isLiteral : IntervalValue → Bool
  | .literal _ _ => true
  | .nonLiteral _ => false

/- The Python `str(op.interval.value)` used by `_timestamp_bucket`; only
reached on the literal branch. -/
def IntervalValue.valueStr : IntervalValue → String
  | .literal _ v => toString v
  | .nonLiteral _ => ""

/- The `_timestamp_bucket` lowering (lines 117-137).  The source reads
`op.interval.dtype.unit.short` first, then checks in order: literal-ness
of the interval, the unit (`"us"` or missing from `_interval_units`),
and the offset; every failure raises `UnsupportedOperationError`.  On
success all of part, width and origin go through `sa.literal_column`,
i.e. verbatim. -/
def _timestamp_bucket (interval : IntervalValue) (offset : Option SQLExpr)
    (arg : SQLExpr) : Except CompErr SQLExpr :=
  let unit := interval.unitShort
  if interval.isLiteral = false then
    .error (.unsupportedOperation "Only literal interval values are supported")
  else if unit = "us" then
    .error (.unsupportedOperation ("Unsupported bucket interval " ++ unit))
  else
    match _interval_units.lookup unit with
    | none => .error (.unsupportedOperation ("Unsupported bucket interval " ++ unit))
    | some kw =>
      if offset.isSome then
        .error (.unsupportedOperation "Timestamp bucket with offset is not supported")
      else
        .ok (.func "DATE_BUCKET"
          [.verbatim kw, .verbatim interval.valueStr, arg,
           .verbatim "CAST(\x271970-01-01\x27 AS DATETIME2)"])

/- The `_not` lowering (lines 146-153): `within_where` is the translator
flag `t.within_where`, `arg` the translated operand. -/
def _not (within_where : Bool) (arg : SQLExpr) : SQLExpr :=
  if within_where then
    .notE arg
  else
    .caseWhen (.eq arg (.intLit 0)) (.boolLit true) (.boolLit false)

/- The `_len` helper (lines 156-170): `sa.func.len("A" + x + "Z") - 2`,
where the Python strings become bound string parameters and `+` is
SQL string concatenation (left associated). -/
def _len (x : SQLExpr) : SQLExpr :=
  .sub (.func "len" [.concat (.concat (.strLit "A") x) (.strLit "Z")]) (.intLit 2)

/- Semantics of the MSSQL `LEN` builtin, which the docstring of `_len`
documents as not counting trailing spaces: the length of the argument
after dropping trailing space characters. -/
def mssqlLEN (s : String) : Int :=
  ((s.data.reverse.dropWhile (fun c => c == ' ')).length : Int)

/- The `_string_find` lowering (lines 53-63): `op.args` destructures as
`arg, substr, start, _`; the fourth (end) argument is discarded, a
present start is forwarded to `charindex` unchanged, and 1 is subtracted
from the `charindex` result in both branches. -/
def _string_find (arg substr : SQLExpr) (start : Option SQLExpr)
    (_endArg : Option SQLExpr) : SQLExpr :=
  match start with
  | some sa_start => .sub (.func "charindex" [substr, arg, sa_start]) (.intLit 1)
  | none => .sub (.func "charindex" [substr, arg]) (.intLit 1)

/- First 0-based position at which `needle` occurs in `hay`, if any. -/
def charindexFound (needle hay : String) : Option Nat :=
  (List.range (hay.length + 1)).find? (fun i => needle.data.isPrefixOf (hay.data.drop i))

/- Semantics of the MSSQL `CHARINDEX` builtin: 1-based position of the
first occurrence, 0 when not found. -/
def charindexSem (needle hay : String) : Int :=
  match charindexFound needle hay with
  | some i => (i : Int) + 1
  | none => 0

/- The `_hashbytes` lowering (lines 229-241): `how` is `op.how`, `arg`
the translated operand.  The algorithm string is passed as a plain
Python value, i.e. a bound parameter. -/
def _hashbytes (how : String) (arg : SQLExpr) : Except CompErr SQLExpr :=
  if how = "md5" ∨ how = "sha1" then
    .ok (.func "hashbytes" [.strLit how, arg])
  else if how = "sha256" then
    .ok (.func "hashbytes" [.strLit "sha2_256", arg])
  else if how = "sha512" then
    .ok (.func "hashbytes" [.strLit "sha2_512", arg])
  else
    .error (.notImplementedError how)

/- The `_hexdigest` lowering (lines 244-267): the same algorithm
dispatch builds `hashbinary`, which is then wrapped in
`lower(convert(VARCHAR(MAX), hashbinary, 2))`; style 2 of `CONVERT`
renders hex without the leading `0x` marker. -/
def _hexdigest (how : String) (arg : SQLExpr) : Except CompErr SQLExpr :=
  let hb : Except CompErr SQLExpr :=
    if how = "md5" ∨ how = "sha1" then
      .ok (.func "hashbytes" [.strLit how, arg])
    else if how = "sha256" then
      .ok (.func "hashbytes" [.strLit "sha2_256", arg])
    else if how = "sha512" then
      .ok (.func "hashbytes" [.strLit "sha2_512", arg])
    else
      .error (.notImplementedError how)
  match hb with
  | .error e => .error e
  | .ok hashbinary =>
    .ok (.func "lower"
      [.func "convert" [.verbatim "VARCHAR(MAX)", hashbinary, .intLit 2]])

/- Semantics of the MSSQL `CONVERT(VARCHAR(MAX), b, 2)` rendering of a
binary value: uppercase hexadecimal digits, two per byte, with no `0x`
marker (style 2). -/
def upperHexDigit (n : Nat) : Char :=
  if n < 10 then Char.ofNat (48 + n) else Char.ofNat (55 + n)

def convertStyle2Chars (bs : List Nat) : List Char :=
  bs.foldr (fun b acc => upperHexDigit (b / 16 % 16) :: upperHexDigit (b % 16) :: acc) []

/- Semantics of the SQL `lower` applied to the rendered digest. -/
def hexDigestChars (bs : List Nat) : List Char :=
  (convertStyle2Chars bs).map Char.toLower

/- Timestamp literal values as consumed by `_literal` (lines 186-212): the
seven datetime components plus, for timezone-aware values, the
`strftime("%z")` rendering of the UTC offset (e.g. `"+0530"`); a naive
value has `tzinfo = none`. -/
structure TimestampValue where
  year : Int
  month : Int
  day : Int
  hour : Int
  minute : Int
  second : Int
  microsecond : Int
  tzinfo : Option String
deriving DecidableEq

/- Value of an all-digit character list, as read by Python `int`. -/
def digitsVal (l : List Char) : Int :=
  l.foldl (fun acc c => 10 * acc + ((c.toNat : Int) - 48)) 0

/- Python `int(s)` restricted to an optional leading sign followed by
decimal digits (the shapes fed to it by `_literal`); `none` models the
`ValueError` raised on any other input. -/
def pyInt? (s : String) : Option Int :=
  match s.data with
  | '+' :: rest =>
    if rest ≠ [] ∧ rest.all Char.isDigit then some (digitsVal rest) else none
  | '-' :: rest =>
    if rest ≠ [] ∧ rest.all Char.isDigit then some (-(digitsVal rest)) else none
  | l =>
    if l ≠ [] ∧ l.all Char.isDigit then some (digitsVal l) else none

/- Python slicing `s[:3]` and `s[-2:]`, as applied to the offset string. -/
def pySliceTake3 (s : String) : String := ⟨s.data.take 3⟩

def pySliceLast2 (s : String) : String := ⟨s.data.drop (s.data.length - 2)⟩

/- The timestamp branch of `_literal` (lines 186-212): `has_tz` is
`dtype.timezone is not None`.  With a timezone the code asserts
`value.tzinfo is not None`, parses `int(offset[:3])` and
`int(offset[-2:])` out of `value.strftime("%z")` and emits
`datetimeoffsetfromparts` with precision 6; without one it emits
`datetime2fromparts` with precision 6. -/
def _literal_timestamp (has_tz : Bool) (v : TimestampValue) : Except CompErr SQLExpr :=
  let args : List SQLExpr :=
    [.intLit v.year, .intLit v.month, .intLit v.day,
     .intLit v.hour, .intLit v.minute, .intLit v.second, .intLit v.microsecond]
  if has_tz then
    match v.tzinfo with
    | none => .error .assertionFailed
    | some offset =>
      match pyInt? (pySliceTake3 offset), pyInt? (pySliceLast2 offset) with
      | some hour_offset, some minute_offset =>
        .ok (.func "datetimeoffsetfromparts"
          (args ++ [.intLit hour_offset, .intLit minute_offset, .intLit 6]))
      | _, _ => .error .valueError
  else
    .ok (.func "datetime2fromparts" (args ++ [.intLit 6]))

/- Type descriptors attached to ibis operation nodes: a type name plus
the nullability flag (`dt.dtype(cast_type)(nullable=nullable)` builds
one from a name and a flag). -/
structure DType where
  name : String
  nullable : Bool
deriving DecidableEq

def DType.is_boolean (t : DType) : Bool := t.name = "boolean"

/- The fragment of the ibis operation-node tree handled by `_reduction`
(lines 19-34): a `TableColumn`, any other already-typed expression, and
the `Cast` / `IfElse` / literal nodes the rewrite itself builds. -/
inductive Node where
  | tableColumn (rel name : String) (dtype : DType)
  | otherExpr (id : Nat) (dtype : DType)
  | cast (arg : Node) (target : DType)
  | ifElse (cond thenB elseB : Node)
  | intLit (n : Int)
  | nullLit
deriving DecidableEq

/- Result dtype of a node, as ibis computes it: a `Cast` has its target
type, an `IfElse` the type of its true branch, integer literals an
integer type, `None` the null type. -/
def Node.dtype : Node → DType
  | .tableColumn _ _ dt => dt
  | .otherExpr _ dt => dt
  | .cast _ target => target
  | .ifElse _ thenB _ => thenB.dtype
  | .intLit _ => ⟨"int8", true⟩
  | .nullLit => ⟨"null", true⟩

def Node.isTableColumn : Node → Bool
  | .tableColumn _ _ _ => true
  | _ => false

/- The boolean-argument rewrite at the top of `reduction_compiler`
(lines 23-28): a boolean `TableColumn` is cast to `cast_type` with the
column's nullability, any other boolean-typed node becomes
`IfElse(arg, 1, 0)`, and a non-boolean argument is untouched. -/
def boolCoerce (cast_type : String) (arg : Node) : Node :=
  if arg.dtype.is_boolean then
    match arg with
    | .tableColumn rel name dt => .cast (.tableColumn rel name dt) ⟨cast_type, dt.nullable⟩
    | a => .ifElse a (.intLit 1) (.intLit 0)
  else
    arg

/- An aggregate call `func(t.translate(arg))`, recorded before
translation as the function name plus the rewritten ibis argument. -/
structure AggCall where
  func : String
  arg : Node
deriving DecidableEq

/- The `_reduction(func, cast_type="int32")` compiler (lines 19-34):
boolean coercion of the argument, then conditional-null masking
`IfElse(where, arg, None)` when a filter predicate is present, then the
aggregate function applied to the rewritten argument. -/
def _reduction (func : String) (cast_type : String := "int32")
    (arg : Node) (whereArg : Option Node) : AggCall :=
  let arg1 := boolCoerce cast_type arg
  let arg2 :=
    match whereArg with
    | some w => Node.ifElse w arg1 Node.nullLit
    | none => arg1
  ⟨func, arg2⟩

/- Operation kinds named in `registry.py`; `other` covers every kind that
only the upstream default registries mention. -/
inductive OpKind where
  | NotOp | Count | Max | Min | Sum | Mean | IfElse
  | Capitalize | LStrip | Lowercase | RStrip | RepeatOp | Reverse
  | StringFind | StringLength | StringReplace | Strip | Uppercase
  | Abs | Acos | Asin | Atan2 | Atan | Ceil | Cos | Floor | FloorDivide
  | Power | Sign | Sin | Sqrt | Tan | Round | RandomScalar
  | Ln | Log | Log2 | Log10 | StandardDev | Variance
  | TimestampNow | ExtractYear | ExtractMonth | ExtractDay | ExtractDayOfYear
  | ExtractHour | ExtractMinute | ExtractSecond | ExtractMillisecond
  | ExtractWeekOfYear | DayOfWeekIndex | ExtractEpochSeconds | TimestampFromUNIX
  | DateFromYMD | TimestampFromYMDHMS | TimeFromHMS
  | TimestampTruncate | DateTruncate | TimestampBucket
  | Hash | HashBytes | HexDigest | ExtractMicrosecond
  | TimeDelta | DateDelta | TimestampDelta | LiteralOp
  | RPad | LPad | BitAnd | BitOr | BitXor | GroupConcat | NthValue
  | other (name : String)
deriving BEq


/- Registry values: reductions keep the aggregate name and cast target
they were built with; every other entry is recorded by the name of its
lowering function or builder expression. -/
inductive RegEntry where
  | reductionE (func cast_type : String)
  | namedE (tag : String)
deriving DecidableEq

/- The dialect-override dict passed to `operation_registry.update`
(lines 273-370), in source order. -/
def mssqlOverrides : OpKind → Option RegEntry
  | .NotOp => some (.namedE "_not")
  | .Count => some (.reductionE "count" "int32")
  | .Max => some (.reductionE "max" "int32")
  | .Min => some (.reductionE "min" "int32")
  | .Sum => some (.reductionE "sum" "int32")
  | .Mean => some (.reductionE "avg" "float64")
  | .IfElse => some (.namedE "fixed_arity iif 3")
  | .Capitalize => some (.namedE "unary capitalize")
  | .LStrip => some (.namedE "unary ltrim")
  | .Lowercase => some (.namedE "unary lower")
  | .RStrip => some (.namedE "unary rtrim")
  | .RepeatOp => some (.namedE "fixed_arity replicate 2")
  | .Reverse => some (.namedE "unary reverse")
  | .StringFind => some (.namedE "_string_find")
  | .StringLength => some (.namedE "unary _len")
  | .StringReplace => some (.namedE "fixed_arity replace 3")
  | .Strip => some (.namedE "unary trim")
  | .Uppercase => some (.namedE "unary upper")
  | .Abs => some (.namedE "unary abs")
  | .Acos => some (.namedE "unary acos")
  | .Asin => some (.namedE "unary asin")
  | .Atan2 => some (.namedE "fixed_arity atn2 2")
  | .Atan => some (.namedE "unary atan")
  | .Ceil => some (.namedE "unary ceiling")
  | .Cos => some (.namedE "unary cos")
  | .Floor => some (.namedE "unary floor")
  | .FloorDivide => some (.namedE "fixed_arity floor-div 2")
  | .Power => some (.namedE "fixed_arity power 2")
  | .Sign => some (.namedE "unary sign")
  | .Sin => some (.namedE "unary sin")
  | .Sqrt => some (.namedE "unary sqrt")
  | .Tan => some (.namedE "unary tan")
  | .Round => some (.namedE "_round")
  | .RandomScalar => some (.namedE "fixed_arity RAND 0")
  | .Ln => some (.namedE "fixed_arity log 1")
  | .Log => some (.namedE "fixed_arity log 2")
  | .Log2 => some (.namedE "fixed_arity log-2 1")
  | .Log10 => some (.namedE "fixed_arity log-10 1")
  | .StandardDev => some (.namedE "variance_reduction stdev")
  | .Variance => some (.namedE "variance_reduction var")
  | .TimestampNow => some (.namedE "fixed_arity GETDATE 0")
  | .ExtractYear => some (.namedE "_extract year")
  | .ExtractMonth => some (.namedE "_extract month")
  | .ExtractDay => some (.namedE "_extract day")
  | .ExtractDayOfYear => some (.namedE "_extract dayofyear")
  | .ExtractHour => some (.namedE "_extract hour")
  | .ExtractMinute => some (.namedE "_extract minute")
  | .ExtractSecond => some (.namedE "_extract second")
  | .ExtractMillisecond => some (.namedE "_extract millisecond")
  | .ExtractWeekOfYear => some (.namedE "_extract iso_week")
  | .DayOfWeekIndex => some (.namedE "fixed_arity weekday 1")
  | .ExtractEpochSeconds => some (.namedE "fixed_arity epoch-seconds 1")
  | .TimestampFromUNIX => some (.namedE "_timestamp_from_unix")
  | .DateFromYMD => some (.namedE "fixed_arity datefromparts 3")
  | .TimestampFromYMDHMS => some (.namedE "fixed_arity datetimefromparts 6")
  | .TimeFromHMS => some (.namedE "fixed_arity timefromparts 3")
  | .TimestampTruncate => some (.namedE "_timestamp_truncate")
  | .DateTruncate => some (.namedE "_timestamp_truncate")
  | .TimestampBucket => some (.namedE "_timestamp_bucket")
  | .Hash => some (.namedE "unary checksum")
  | .HashBytes => some (.namedE "_hashbytes")
  | .HexDigest => some (.namedE "_hexdigest")
  | .ExtractMicrosecond => some (.namedE "fixed_arity microsecond 1")
  | .TimeDelta => some (.namedE "_temporal_delta")
  | .DateDelta => some (.namedE "_temporal_delta")
  | .TimestampDelta => some (.namedE "_temporal_delta")
  | .LiteralOp => some (.namedE "_literal")
  | _ => none

/- The `_invalid_operations` set (lines 372-383). -/
def _invalid_operations : List OpKind :=
  [.RPad, .LPad, .BitAnd, .BitOr, .BitXor, .GroupConcat, .NthValue]

/- The composed final registry (lines 270-271 and 385-387): a copy of the
upstream default registry, updated with the window-function registry,
updated with the dialect overrides, and finally filtered so that kinds
in `_invalid_operations` are absent.  The two upstream registries live
outside this repository, so they stay abstract parameters. -/
def operation_registry (base window : OpKind → Option RegEntry) :
    OpKind → Option RegEntry :=
  fun k =>
    if _invalid_operations.contains k then none
    else
      match mssqlOverrides k with
      | some e => some e
      | none =>
        match window k with
        | some e => some e
        | none => base k

/- Python `data[index]` on a list, as `execute_array_index_scalar`
(arrays.py lines 69-74) runs it under `try ... except IndexError`:
negative indices count from the end, and `none` stands for the caught
`IndexError`. -/
def pyGetItem {α : Type} (l : List α) (i : Int) : Option α :=
  let j : Int := if i < 0 then (l.length : Int) + i else i
  if 0 ≤ j ∧ j < (l.length : Int) then l.get? j.toNat else none

/- The per-element body of `execute_array_index` (arrays.py lines 60-66):
`array[index] if -len(array) <= index < len(array) else None`. -/
def execute_array_index {α : Type} (l : List α) (i : Int) : Option α :=
  if -(l.length : Int) ≤ i ∧ i < (l.length : Int) then pyGetItem l i else none

/- The scalar-array overload `execute_array_index_scalar` (arrays.py
lines 69-74): `data[index]`, with `IndexError` caught and turned into
`None`. -/
def execute_array_index_scalar {α : Type} (l : List α) (i : Int) : Option α :=
  pyGetItem l i

/- Helper lemmas shared by the claim theorems. -/

theorem mssqlLEN_pad (s : String) : mssqlLEN ("A" ++ s ++ "Z") = (s.length : Int) + 2 := by
  have h : ("A" ++ s ++ "Z").data = 'A' :: (s.data ++ ['Z']) := by
    rw [String.data_append, String.data_append]
    rfl
  unfold mssqlLEN
  rw [h, List.reverse_cons, List.reverse_append]
  simp only [List.reverse_singleton, List.singleton_append, List.cons_append,
    List.dropWhile_cons, List.nil_append]
  rw [if_neg (by decide)]
  simp only [List.length_cons, List.length_append, List.length_reverse,
    List.length_singleton, List.length_nil]
  have hl : s.length = s.data.length := rfl
  omega

theorem upperHexDigit_toLower_mem (k : Nat) (hk : k < 16) :
    (upperHexDigit k).toLower ∈ ("0123456789abcdef").data := by
  interval_cases k <;> decide

theorem hexDigestChars_mem (bs : List Nat) (c : Char) (h : c ∈ hexDigestChars bs) :
    c ∈ ("0123456789abcdef").data := by
  induction bs with
  | nil => simp [hexDigestChars, convertStyle2Chars] at h
  | cons b t ih =>
    simp only [hexDigestChars, convertStyle2Chars, List.foldr_cons, List.map_cons,
      List.mem_cons] at h
    rcases h with h | h | h
    · exact h ▸ upperHexDigit_toLower_mem _ (Nat.mod_lt _ (by norm_num))
    · exact h ▸ upperHexDigit_toLower_mem _ (Nat.mod_lt _ (by norm_num))
    · exact ih (by simpa [hexDigestChars] using h)

/-- C3: `Not` lowered in predicate (WHERE-like) context emits the native
logical negation of the translated operand, and in non-predicate
(selection) context emits a conditional that compares the operand to 0
and selects `true` when equal and `false` otherwise. -/
theorem c3_not_contextual (arg : SQLExpr) :
    _not true arg = SQLExpr.notE arg
  ∧ _not false arg =
      SQLExpr.caseWhen (SQLExpr.eq arg (SQLExpr.intLit 0))
        (SQLExpr.boolLit true) (SQLExpr.boolLit false) :=
  ⟨rfl, rfl⟩

/-- C5: `StringLength` lowers every operand to `len("A" + s + "Z") - 2`
with the fixed non-space pad characters `A` and `Z`, and under the MSSQL
`LEN` semantics (trailing spaces not counted) this equals the true
character count of `s`, including `"" ↦ 0` and `"hello" ↦ 5`. -/
theorem c5_string_length (x : SQLExpr) (s : String) :
    _len x = SQLExpr.sub
        (SQLExpr.func "len"
          [SQLExpr.concat (SQLExpr.concat (SQLExpr.strLit "A") x) (SQLExpr.strLit "Z")])
        (SQLExpr.intLit 2)
  ∧ mssqlLEN ("A" ++ s ++ "Z") - 2 = (s.length : Int)
  ∧ mssqlLEN ("A" ++ "" ++ "Z") - 2 = 0
  ∧ mssqlLEN ("A" ++ "hello" ++ "Z") - 2 = 5 := by
  refine ⟨rfl, ?_, by decide, by decide⟩
  rw [mssqlLEN_pad]
  omega

/-- C9: `StringFind` lowers to `charindex(substr, arg) - 1`, forwards a
supplied start position to `charindex` unchanged as a third argument,
ignores the fourth (end) argument entirely, and subtracting 1 turns the
1-based `CHARINDEX` convention (0 = not found) into a 0-based position
with -1 for not found. -/
theorem c9_string_find (arg substr sa_start : SQLExpr)
    (endA endB start : Option SQLExpr) (needle hay : String) :
    _string_find arg substr none endA =
      SQLExpr.sub (SQLExpr.func "charindex" [substr, arg]) (SQLExpr.intLit 1)
  ∧ _string_find arg substr (some sa_start) endA =
      SQLExpr.sub (SQLExpr.func "charindex" [substr, arg, sa_start]) (SQLExpr.intLit 1)
  ∧ _string_find arg substr start endA = _string_find arg substr start endB
  ∧ charindexSem needle hay - 1 =
      (match charindexFound needle hay with
       | some i => (i : Int)
       | none => -1) := by
  refine ⟨rfl, rfl, rfl, ?_⟩
  cases h : charindexFound needle hay <;> simp [charindexSem, h]

/-- C1 counterexample: truncation at the microsecond unit "us" does not
fail; `_interval_units` contains "us", so `_timestamp_truncate` succeeds
and emits `datetrunc(microsecond, arg)`. -/
theorem c1_truncate_us_succeeds :
    _timestamp_truncate "us" (SQLExpr.column "t") =
      Except.ok (SQLExpr.func "datetrunc"
        [SQLExpr.verbatim "microsecond", SQLExpr.column "t"])
  ∧ (_timestamp_truncate "us" (SQLExpr.column "t")).isOk = true :=
  ⟨rfl, rfl⟩

/-- C1 (amended): for the Truncate lowering shared by `TimestampTruncate`
and `DateTruncate`, every unit present in the interval-unit map —
including microsecond — succeeds and emits a `datetrunc` call whose
keyword is the mapped dialect keyword passed as a verbatim identifier,
while a unit absent from the map fails with `UnsupportedOperationError`;
the ten enumerated units map to their documented keywords. -/
theorem c1_truncate_units (arg : SQLExpr) (u kw : String) :
    (_interval_units.lookup u = some kw →
      _timestamp_truncate u arg =
        Except.ok (SQLExpr.func "datetrunc" [SQLExpr.verbatim kw, arg]))
  ∧ (_interval_units.lookup u = none →
      _timestamp_truncate u arg =
        Except.error (CompErr.unsupportedOperation ("Unsupported truncate unit " ++ u)))
  ∧ _interval_units.lookup "us" = some "microsecond"
  ∧ _interval_units.lookup "ms" = some "millisecond"
  ∧ _interval_units.lookup "s" = some "second"
  ∧ _interval_units.lookup "m" = some "minute"
  ∧ _interval_units.lookup "h" = some "hour"
  ∧ _interval_units.lookup "D" = some "day"
  ∧ _interval_units.lookup "W" = some "week"
  ∧ _interval_units.lookup "M" = some "month"
  ∧ _interval_units.lookup "Q" = some "quarter"
  ∧ _interval_units.lookup "Y" = some "year"
  ∧ mssqlOverrides OpKind.TimestampTruncate = some (RegEntry.namedE "_timestamp_truncate")
  ∧ mssqlOverrides OpKind.DateTruncate = some (RegEntry.namedE "_timestamp_truncate") := by
  refine ⟨?_, ?_, rfl, rfl, rfl, rfl, rfl, rfl, rfl, rfl, rfl, rfl, rfl, rfl⟩
  · intro h
    simp [_timestamp_truncate, h]
  · intro h
    simp [_timestamp_truncate, h]

/-- Witness for `c1_truncate_units` at the units "Q" and "ns". -/
theorem c1_truncate_units_witness :
    _timestamp_truncate "Q" (SQLExpr.column "c") =
      Except.ok (SQLExpr.func "datetrunc" [SQLExpr.verbatim "quarter", SQLExpr.column "c"])
  ∧ _timestamp_truncate "ns" (SQLExpr.column "c") =
      Except.error (CompErr.unsupportedOperation ("Unsupported truncate unit " ++ "ns")) :=
  ⟨(c1_truncate_units (SQLExpr.column "c") "Q" "quarter").1 rfl,
   (c1_truncate_units (SQLExpr.column "c") "ns" "quarter").2.1 rfl⟩

/-- C2 counterexample: a non-literal bucket interval fails with
`UnsupportedOperationError`, not with an UnsupportedArgument error. -/
theorem c2_bucket_nonliteral_kind :
    _timestamp_bucket (IntervalValue.nonLiteral "s") none (SQLExpr.column "t") =
      Except.error (CompErr.unsupportedOperation "Only literal interval values are supported")
  ∧ errKindIsUnsupportedArgument
      (_timestamp_bucket (IntervalValue.nonLiteral "s") none (SQLExpr.column "t")) = false :=
  ⟨rfl, rfl⟩

/-- C2 (amended): bucket lowering fails — always with
`UnsupportedOperationError` — when the interval argument is not a
compile-time literal, when its unit is microsecond or absent from the
unit map, or when an offset argument is supplied; otherwise it emits
`DATE_BUCKET(unit, width, value, origin)` with the fixed epoch origin
(the 1970-01-01 date cast to DATETIME2) passed verbatim. -/
theorem c2_bucket (interval : IntervalValue) (offset : Option SQLExpr)
    (arg off : SQLExpr) (kw : String) :
    (interval.isLiteral = false →
      _timestamp_bucket interval offset arg =
        Except.error (CompErr.unsupportedOperation "Only literal interval values are supported"))
  ∧ (interval.isLiteral = true → interval.unitShort = "us" →
      _timestamp_bucket interval offset arg =
        Except.error (CompErr.unsupportedOperation
          ("Unsupported bucket interval " ++ interval.unitShort)))
  ∧ (interval.isLiteral = true → _interval_units.lookup interval.unitShort = none →
      _timestamp_bucket interval offset arg =
        Except.error (CompErr.unsupportedOperation
          ("Unsupported bucket interval " ++ interval.unitShort)))
  ∧ (interval.isLiteral = true → interval.unitShort ≠ "us" →
      _interval_units.lookup interval.unitShort = some kw →
      _timestamp_bucket interval (some off) arg =
        Except.error (CompErr.unsupportedOperation
          "Timestamp bucket with offset is not supported"))
  ∧ (interval.isLiteral = true → interval.unitShort ≠ "us" →
      _interval_units.lookup interval.unitShort = some kw →
      _timestamp_bucket interval none arg =
        Except.ok (SQLExpr.func "DATE_BUCKET"
          [SQLExpr.verbatim kw, SQLExpr.verbatim interval.valueStr, arg,
           SQLExpr.verbatim "CAST(\x271970-01-01\x27 AS DATETIME2)"]))
  ∧ mssqlOverrides OpKind.TimestampBucket = some (RegEntry.namedE "_timestamp_bucket") := by
  refine ⟨?_, ?_, ?_, ?_, ?_, rfl⟩
  · intro h
    simp [_timestamp_bucket, h]
  · intro h1 h2
    simp [_timestamp_bucket, h1, h2]
  · intro h1 h2
    simp [_timestamp_bucket, h1, h2]
  · intro h1 h2 h3
    simp [_timestamp_bucket, h1, h2, h3]
  · intro h1 h2 h3
    simp [_timestamp_bucket, h1, h2, h3]

/-- Witness for `c2_bucket`: a literal four-hour interval succeeds, and
the same interval with an offset fails. -/
theorem c2_bucket_witness :
    _timestamp_bucket (IntervalValue.literal "h" 4) none (SQLExpr.column "t") =
      Except.ok (SQLExpr.func "DATE_BUCKET"
        [SQLExpr.verbatim "hour", SQLExpr.verbatim "4", SQLExpr.column "t",
         SQLExpr.verbatim "CAST(\x271970-01-01\x27 AS DATETIME2)"])
  ∧ _timestamp_bucket (IntervalValue.literal "h" 4) (some (SQLExpr.intLit 1))
      (SQLExpr.column "t") =
      Except.error (CompErr.unsupportedOperation
        "Timestamp bucket with offset is not supported") :=
  ⟨(c2_bucket (IntervalValue.literal "h" 4) none (SQLExpr.column "t")
      (SQLExpr.intLit 1) "hour").2.2.2.2.1 rfl (by decide) rfl,
   (c2_bucket (IntervalValue.literal "h" 4) none (SQLExpr.column "t")
      (SQLExpr.intLit 1) "hour").2.2.2.1 rfl (by decide) rfl⟩

/-- C6: `_hashbytes` and `_hexdigest` pass md5 and sha1 through
unchanged, rename sha256 to "sha2_256" and sha512 to "sha2_512", and
fail with `NotImplementedError` on every other algorithm; `_hexdigest`
wraps the hash in `lower(convert(VARCHAR(MAX), ., 2))` — style 2 renders
hex without the `0x` marker — so under that CONVERT semantics every
output character is a lowercase hex digit and no `x` marker occurs. -/
theorem c6_hash_hexdigest (how : String) (arg : SQLExpr) (bs : List Nat) (c : Char) :
    _hashbytes "md5" arg = Except.ok (SQLExpr.func "hashbytes" [SQLExpr.strLit "md5", arg])
  ∧ _hashbytes "sha1" arg = Except.ok (SQLExpr.func "hashbytes" [SQLExpr.strLit "sha1", arg])
  ∧ _hashbytes "sha256" arg =
      Except.ok (SQLExpr.func "hashbytes" [SQLExpr.strLit "sha2_256", arg])
  ∧ _hashbytes "sha512" arg =
      Except.ok (SQLExpr.func "hashbytes" [SQLExpr.strLit "sha2_512", arg])
  ∧ (how ≠ "md5" → how ≠ "sha1" → how ≠ "sha256" → how ≠ "sha512" →
      _hashbytes how arg = Except.error (CompErr.notImplementedError how)
      ∧ _hexdigest how arg = Except.error (CompErr.notImplementedError how))
  ∧ (∀ hb, _hashbytes how arg = Except.ok hb →
      _hexdigest how arg = Except.ok (SQLExpr.func "lower"
        [SQLExpr.func "convert" [SQLExpr.verbatim "VARCHAR(MAX)", hb, SQLExpr.intLit 2]]))
  ∧ (c ∈ hexDigestChars bs → c ∈ ("0123456789abcdef").data)
  ∧ 'x' ∉ hexDigestChars bs
  ∧ 'X' ∉ hexDigestChars bs := by
  refine ⟨rfl, rfl, rfl, rfl, ?_, ?_, hexDigestChars_mem bs c, ?_, ?_⟩
  · intro h1 h2 h3 h4
    constructor
    · simp [_hashbytes, h1, h2, h3, h4]
    · simp [_hexdigest, h1, h2, h3, h4]
  · intro hb hok
    unfold _hashbytes at hok
    unfold _hexdigest
    split at hok
    · rw [if_pos (by assumption)]
      cases hok
      rfl
    · split at hok
      · rw [if_neg (by assumption), if_pos (by assumption)]
        cases hok
        rfl
      · split at hok
        · rw [if_neg (by assumption), if_neg (by assumption), if_pos (by assumption)]
          cases hok
          rfl
        · cases hok
  · intro h
    have := hexDigestChars_mem bs 'x' h
    simp at this
  · intro h
    have := hexDigestChars_mem bs 'X' h
    simp at this

/-- Witness for `c6_hash_hexdigest`: an unknown algorithm fails, sha256
hex-digest lowers to the lower/convert wrapper, and the rendered digest
of the byte 0xAA consists of lowercase hex characters. -/
theorem c6_hash_hexdigest_witness :
    _hashbytes "blake2" (SQLExpr.column "x") =
      Except.error (CompErr.notImplementedError "blake2")
  ∧ _hexdigest "sha256" (SQLExpr.column "x") =
      Except.ok (SQLExpr.func "lower"
        [SQLExpr.func "convert"
          [SQLExpr.verbatim "VARCHAR(MAX)",
           SQLExpr.func "hashbytes" [SQLExpr.strLit "sha2_256", SQLExpr.column "x"],
           SQLExpr.intLit 2]])
  ∧ 'a' ∈ ("0123456789abcdef").data :=
  ⟨((c6_hash_hexdigest "blake2" (SQLExpr.column "x") [] 'a').2.2.2.2.1
      (by decide) (by decide) (by decide) (by decide)).1,
   (c6_hash_hexdigest "sha256" (SQLExpr.column "x") [] 'a').2.2.2.2.2.1 _ rfl,
   (c6_hash_hexdigest "sha256" (SQLExpr.column "x") [170] 'a').2.2.2.2.2.2.1 (by decide)⟩

/-- C8: a timezone-typed timestamp literal lowers to a
`datetimeoffsetfromparts` call with the seven datetime components, the
signed hour offset `int(offset[:3])` and minute offset
`int(offset[-2:])` parsed from the value's UTC offset string, and the
fixed precision constant 6; both the strftime rendering "+0530" and the
colon form "+05:30" parse to hour offset 5 and minute offset 30; a
timezone-typed literal without offset information fails the assertion. -/
theorem c8_literal_timestamp_tz (v : TimestampValue) (offset : String) (ho mo : Int) :
    (v.tzinfo = none → _literal_timestamp true v = Except.error CompErr.assertionFailed)
  ∧ (v.tzinfo = some offset →
      pyInt? (pySliceTake3 offset) = some ho →
      pyInt? (pySliceLast2 offset) = some mo →
      _literal_timestamp true v = Except.ok (SQLExpr.func "datetimeoffsetfromparts"
        [SQLExpr.intLit v.year, SQLExpr.intLit v.month, SQLExpr.intLit v.day,
         SQLExpr.intLit v.hour, SQLExpr.intLit v.minute, SQLExpr.intLit v.second,
         SQLExpr.intLit v.microsecond, SQLExpr.intLit ho, SQLExpr.intLit mo,
         SQLExpr.intLit 6]))
  ∧ (pyInt? (pySliceTake3 "+0530") = some 5 ∧ pyInt? (pySliceLast2 "+0530") = some 30)
  ∧ (pyInt? (pySliceTake3 "+05:30") = some 5 ∧ pyInt? (pySliceLast2 "+05:30") = some 30)
  ∧ (pyInt? (pySliceTake3 "-0430") = some (-4) ∧ pyInt? (pySliceLast2 "-0430") = some 30) := by
  refine ⟨?_, ?_, ⟨by decide, by decide⟩, ⟨by decide, by decide⟩, ⟨by decide, by decide⟩⟩
  · intro h
    simp [_literal_timestamp, h]
  · intro h1 h2 h3
    simp [_literal_timestamp, h1, h2, h3]

/-- Witness for `c8_literal_timestamp_tz` at the value
2023-01-02 03:04:05.000006 with offset rendering "+0530". -/
theorem c8_literal_timestamp_tz_witness :
    _literal_timestamp true ⟨2023, 1, 2, 3, 4, 5, 6, some "+0530"⟩ =
      Except.ok (SQLExpr.func "datetimeoffsetfromparts"
        [SQLExpr.intLit 2023, SQLExpr.intLit 1, SQLExpr.intLit 2,
         SQLExpr.intLit 3, SQLExpr.intLit 4, SQLExpr.intLit 5,
         SQLExpr.intLit 6, SQLExpr.intLit 5, SQLExpr.intLit 30,
         SQLExpr.intLit 6])
  ∧ _literal_timestamp true ⟨2023, 1, 2, 3, 4, 5, 6, none⟩ =
      Except.error CompErr.assertionFailed :=
  ⟨(c8_literal_timestamp_tz ⟨2023, 1, 2, 3, 4, 5, 6, some "+0530"⟩ "+0530" 5 30).2.1
      rfl (by decide) (by decide),
   (c8_literal_timestamp_tz ⟨2023, 1, 2, 3, 4, 5, 6, none⟩ "+0530" 5 30).1 rfl⟩

/-- C10: pandas `ArrayIndex` on a column of arrays returns the element
whenever `-len(array) ≤ i < len(array)` (counting from the end for a
negative index) and `None` otherwise, for every array and integer index
and without ever raising; the scalar-array overload, which catches
`IndexError`, agrees with it on every input. -/
theorem c10_array_index {α : Type} (l : List α) (i : Int) :
    (-(l.length : Int) ≤ i ∧ i < (l.length : Int) →
        (execute_array_index l i).isSome = true)
  ∧ (0 ≤ i → i < (l.length : Int) → execute_array_index l i = l.get? i.toNat)
  ∧ (i < 0 → -(l.length : Int) ≤ i →
        execute_array_index l i = l.get? ((l.length : Int) + i).toNat)
  ∧ (¬(-(l.length : Int) ≤ i ∧ i < (l.length : Int)) →
        execute_array_index l i = none)
  ∧ execute_array_index_scalar l i = execute_array_index l i := by
  have hb : ∀ j : Int, 0 ≤ j → j < (l.length : Int) → (l.get? j.toNat).isSome = true := by
    intro j h0 hj
    have hlt : j.toNat < l.length := by omega
    cases hg : l.get? j.toNat with
    | none =>
      rw [List.get?_eq_none] at hg
      omega
    | some a => rfl
  have hpy : pyGetItem l i =
      if i < 0 then
        (if -(l.length : Int) ≤ i then l.get? ((l.length : Int) + i).toNat else none)
      else
        (if i < (l.length : Int) then l.get? i.toNat else none) := by
    simp only [pyGetItem]
    by_cases hi : i < 0
    · simp only [hi, if_true]
      by_cases hge : -(l.length : Int) ≤ i
      · rw [if_pos (by omega), if_pos hge]
      · rw [if_neg (by omega), if_neg hge]
    · simp only [hi, if_false]
      by_cases hlt : i < (l.length : Int)
      · rw [if_pos (by omega), if_pos hlt]
      · rw [if_neg (by omega), if_neg hlt]
  refine ⟨?_, ?_, ?_, ?_, ?_⟩
  · intro h
    rw [execute_array_index, if_pos h, hpy]
    by_cases hi : i < 0
    · rw [if_pos hi, if_pos h.1]
      exact hb _ (by omega) (by omega)
    · rw [if_neg hi, if_pos h.2]
      exact hb _ (by omega) (by omega)
  · intro h0 hlen
    rw [execute_array_index, if_pos ⟨by omega, hlen⟩, hpy, if_neg (by omega), if_pos hlen]
  · intro hneg hge
    rw [execute_array_index, if_pos ⟨hge, by omega⟩, hpy, if_pos hneg, if_pos hge]
  · intro h
    rw [execute_array_index, if_neg h]
  · rw [execute_array_index_scalar]
    by_cases h : -(l.length : Int) ≤ i ∧ i < (l.length : Int)
    · rw [execute_array_index, if_pos h]
    · rw [execute_array_index, if_neg h, hpy]
      by_cases hi : i < 0
      · rw [if_pos hi, if_neg (by omega)]
      · rw [if_neg hi, if_neg (by omega)]

/-- Witness for `c10_array_index` on the array [10, 20, 30]: index -1
yields the last element and index 3 yields `None`. -/
theorem c10_array_index_witness :
    ((execute_array_index [10, 20, 30] (-1)).isSome = true)
  ∧ execute_array_index [10, 20, 30] (-1) = [10, 20, 30].get? 2
  ∧ execute_array_index [10, 20, 30] 3 = none :=
  ⟨(c10_array_index [10, 20, 30] (-1)).1 (by constructor <;> decide),
   (c10_array_index [10, 20, 30] (-1)).2.2.1 (by decide) (by decide),
   (c10_array_index [10, 20, 30] 3).2.2.2.1 (by decide)⟩

/-- C4: every reduction lowers by the three-step algorithm — a boolean
argument is cast to the numeric cast target preserving the column's
nullability when it is a direct column reference and is otherwise
wrapped in `IfElse(arg, 1, 0)`, so with a non-boolean cast target the
coerced argument is never boolean-typed; a filter predicate replaces the
argument with `IfElse(where, arg, NULL)`; the aggregate is applied to
the rewritten argument — and the registry gives Mean the float64 cast
target where Count/Sum/Min/Max use the default int32 one. -/
theorem c4_reduction (f ct rel name : String) (dt : DType) (arg pn : Node)
    (hct : ct ≠ "boolean") :
    _reduction f ct arg none = ⟨f, boolCoerce ct arg⟩
  ∧ _reduction f ct arg (some pn) = ⟨f, Node.ifElse pn (boolCoerce ct arg) Node.nullLit⟩
  ∧ (dt.is_boolean = true →
      boolCoerce ct (Node.tableColumn rel name dt) =
        Node.cast (Node.tableColumn rel name dt) ⟨ct, dt.nullable⟩)
  ∧ (arg.dtype.is_boolean = true → arg.isTableColumn = false →
      boolCoerce ct arg = Node.ifElse arg (Node.intLit 1) (Node.intLit 0))
  ∧ (arg.dtype.is_boolean = false → boolCoerce ct arg = arg)
  ∧ (arg.dtype.is_boolean = true → (boolCoerce ct arg).dtype.is_boolean = false)
  ∧ mssqlOverrides OpKind.Count = some (RegEntry.reductionE "count" "int32")
  ∧ mssqlOverrides OpKind.Sum = some (RegEntry.reductionE "sum" "int32")
  ∧ mssqlOverrides OpKind.Min = some (RegEntry.reductionE "min" "int32")
  ∧ mssqlOverrides OpKind.Max = some (RegEntry.reductionE "max" "int32")
  ∧ mssqlOverrides OpKind.Mean = some (RegEntry.reductionE "avg" "float64") := by
  refine ⟨rfl, rfl, ?_, ?_, ?_, ?_, rfl, rfl, rfl, rfl, rfl⟩
  · intro h
    simp [boolCoerce, Node.dtype, h]
  · intro h1 h2
    cases arg <;> simp_all [boolCoerce, Node.isTableColumn, Node.dtype]
  · intro h
    simp [boolCoerce, h]
  · intro h
    cases arg <;>
      simp_all [boolCoerce, Node.dtype, Node.isTableColumn, DType.is_boolean, hct]

/-- Witness for `c4_reduction`: a boolean column is cast preserving its
non-nullability, and a boolean non-column expression becomes
`IfElse(arg, 1, 0)`. -/
theorem c4_reduction_witness :
    boolCoerce "int32" (Node.tableColumn "t" "b" ⟨"boolean", false⟩) =
      Node.cast (Node.tableColumn "t" "b" ⟨"boolean", false⟩) ⟨"int32", false⟩
  ∧ boolCoerce "float64" (Node.otherExpr 0 ⟨"boolean", true⟩) =
      Node.ifElse (Node.otherExpr 0 ⟨"boolean", true⟩) (Node.intLit 1) (Node.intLit 0)
  ∧ (boolCoerce "int32" (Node.otherExpr 0 ⟨"boolean", true⟩)).dtype.is_boolean = false :=
  ⟨(c4_reduction "count" "int32" "t" "b" ⟨"boolean", false⟩ Node.nullLit Node.nullLit
      (by decide)).2.2.1 rfl,
   (c4_reduction "avg" "float64" "t" "b" ⟨"boolean", false⟩
      (Node.otherExpr 0 ⟨"boolean", true⟩) Node.nullLit (by decide)).2.2.2.1 rfl rfl,
   (c4_reduction "count" "int32" "t" "b" ⟨"boolean", false⟩
      (Node.otherExpr 0 ⟨"boolean", true⟩) Node.nullLit (by decide)).2.2.2.2.2.1 rfl⟩

/-- C7: every operation kind in the fixed denylist (RPad, LPad, BitAnd,
BitOr, BitXor, GroupConcat, NthValue) is absent from the final composed
operation registry, whatever the upstream default and window-function
registries contain, so resolving any of them always fails. -/
theorem c7_denylist (base window : OpKind → Option RegEntry) (k : OpKind)
    (h : _invalid_operations.contains k = true) :
    operation_registry base window k = none := by
  simp [operation_registry, h]

/-- Witness for `c7_denylist`: each of the seven denylisted kinds is
unresolvable even when both upstream registries supply an entry for
every kind. -/
theorem c7_denylist_witness :
    operation_registry (fun _ => some (RegEntry.namedE "base"))
        (fun _ => some (RegEntry.namedE "win")) OpKind.RPad = none
  ∧ operation_registry (fun _ => some (RegEntry.namedE "base"))
        (fun _ => some (RegEntry.namedE "win")) OpKind.LPad = none
  ∧ operation_registry (fun _ => some (RegEntry.namedE "base"))
        (fun _ => some (RegEntry.namedE "win")) OpKind.BitAnd = none
  ∧ operation_registry (fun _ => some (RegEntry.namedE "base"))
        (fun _ => some (RegEntry.namedE "win")) OpKind.BitOr = none
  ∧ operation_registry (fun _ => some (RegEntry.namedE "base"))
        (fun _ => some (RegEntry.namedE "win")) OpKind.BitXor = none
  ∧ operation_registry (fun _ => some (RegEntry.namedE "base"))
        (fun _ => some (RegEntry.namedE "win")) OpKind.GroupConcat = none
  ∧ operation_registry (fun _ => some (RegEntry.namedE "base"))
        (fun _ => some (RegEntry.namedE "win")) OpKind.NthValue = none :=
  ⟨c7_denylist _ _ OpKind.RPad rfl, c7_denylist _ _ OpKind.LPad rfl,
   c7_denylist _ _ OpKind.BitAnd rfl, c7_denylist _ _ OpKind.BitOr rfl,
   c7_denylist _ _ OpKind.BitXor rfl, c7_denylist _ _ OpKind.GroupConcat rfl,
   c7_denylist _ _ OpKind.NthValue rfl⟩
